import Mathlib

/-!
# Verification of the jup-hedge bundle engine

Shallow embedding of the Jito bundle client (`src/utils/transfer.ts`, second
document: the Jito JSON-RPC client) and of the Drift short-position builders
(`src/hooks/useDriftShort.ts`), together with theorems settling the frozen
claims about them.

Conventions of the embedding:
* machine time (`Date.now()` deltas, `setTimeout` waits) is an explicit `Int`
  clock measured in milliseconds from the start of the call;
* network effects are passed in as explicit data: an RPC call becomes a
  function of the response the relay would have produced, and the polling
  loop becomes a function of the stream of per-tick observations;
* JavaScript `throw`/`catch` becomes `Except String`;
* JavaScript truthiness on the optional fields the code reads (`data.error`,
  `status.err`, `data.result?.value`) is modelled by `Option`, with a present
  value truthy and `none` standing for `null`/`undefined`.
-/

/-- StatusRecord returned by the relay for one bundle handle. The code reads
exactly two fields of the `BundleStatus` record: `confirmation_status` (a
confirmation-level string) and `err` (an optional on-chain error payload,
rendered with `JSON.stringify` when surfaced). -/
structure BundleStatus where
  confirmation_status : String
  err : Option String
deriving DecidableEq, Repr

/-- Result record produced by `waitForBundleConfirmation` and
`submitAndConfirmBundle` (`JitoBundleResult` in `src/types`): the bundle id,
a success flag and an optional error message. -/
structure JitoBundleResult where
  bundleId : String
  success : Bool
  error : Option String
deriving DecidableEq, Repr

/-- Rendering of `JSON.stringify` applied to the error payload carried in
`status.err` (the payload itself is modelled as its string content). -/
def jsonStringify (e : String) : String := "\"" ++ e ++ "\""

/-- The hardcoded Jito tip account list of `src/utils/transfer.ts`
(`JITO_TIP_ACCOUNTS`). -/
def JITO_TIP_ACCOUNTS : List String :=
  ["96gYZGLnJYVFmbjzopPSU6QiEV5fGqZNyN9nmNhvrZU5",
   "HFqU5x63VTqvQss8hp11i4bVmkdzGzXYPG3KFdtj6nj",
   "Cw8CFyM9FkoMi7K7Crf6HNQqf4uEMzpKw6QNghXLvLkY",
   "ADaUMid9yfUytqMBgopwjb2DTLSokTSzL1zt6iGPaS49",
   "DfXygSm4jCyNCybVYYK6DwvWqjKee8pbDmJGcLWNDXjh",
   "ADuUkR4vqLUMWXxW9gh6D6L8pMSawimctcNZ5pGwDcEt",
   "DttWaMuVvTiduZRnguLF7jNxTgiMBZ1hyAumKUiL2KRL",
   "3AVi9Tg9Uo68tJfuvoKvqKNWKkC5wPdSSdeBnizKZ6jT"]

/-- Default tip in lamports (`DEFAULT_TIP_LAMPORTS = 10_000`), documented in
the source as the relay minimum ("0.00001 SOL minimum"). -/
def DEFAULT_TIP_LAMPORTS : Int := 10000

/-- One `SystemProgram.transfer` instruction. -/
structure SystemTransferIx where
  fromPubkey : String
  toPubkey : String
  lamports : Int
deriving DecidableEq, Repr

/-- The transaction produced by `createTipTransaction`: a payer, a recent
blockhash and the instruction list of the compiled message. -/
structure TipTransaction where
  payerKey : String
  recentBlockhash : String
  instructions : List SystemTransferIx
deriving DecidableEq, Repr

/-- Embedding of `getRandomTipAccount`: the fetched address list is indexed at
`Math.floor(Math.random() * addresses.length)`; the random draw is passed in
as the index. An out-of-range index (possible only for an empty list, where
the JS indexing yields `undefined` and `new PublicKey` throws) gives `none`. -/
def getRandomTipAccount (addresses : List String) (randomIndex : Nat) : Option String :=
  addresses.get? randomIndex

/-- Embedding of `createTipTransaction`: selects a tip account via
`getRandomTipAccount` and builds a transaction whose instruction list is
exactly `[SystemProgram.transfer payer tipAccount tipLamports]`. The
caller-supplied `tipLamports` is used verbatim. The fetched address list and
the random index stand for the network fetch and the random draw; `blockhash`
stands for the fetched recent blockhash. -/
def createTipTransaction (payerPubkey : String) (blockhash : String)
    (tipLamports : Int) (addresses : List String) (randomIndex : Nat) :
    Option TipTransaction :=
  match getRandomTipAccount addresses randomIndex with
  | none => none
  | some tipAccount =>
      some { payerKey := payerPubkey
             recentBlockhash := blockhash
             instructions := [⟨payerPubkey, tipAccount, tipLamports⟩] }

/-- URL that `sendBundle` actually POSTs to, as a function of its `endpoint`
parameter: the source passes a hardcoded string literal to `axios.post`, so
the parameter does not occur in the URL. -/
def sendBundleRequestUrl (endpoint : String) : String :=
  "https://amsterdam.mainnet.block-engine.jito.wtf/api/v1/bundles"

/-- URL that `getBundleStatuses` actually POSTs to, as a function of its
`endpoint` parameter (hardcoded in the source). -/
def getBundleStatusesRequestUrl (endpoint : String) : String :=
  "https://amsterdam.mainnet.block-engine.jito.wtf/api/v1/getBundleStatuses"

/-- URL that `getBundleInflightStatuses` actually POSTs to, as a function of
its `endpoint` parameter (hardcoded in the source). -/
def getBundleInflightStatusesRequestUrl (endpoint : String) : String :=
  "https://amsterdam.mainnet.block-engine.jito.wtf/api/v1/getInflightBundleStatuses"

/-- The endpoint `submitAndConfirmBundle` passes to `sendBundle` in the
source. -/
def tokyoBundlesEndpoint : String :=
  "https://tokyo.mainnet.block-engine.jito.wtf/api/v1/bundles"

/-- Relay response envelope for `sendBundle`: an optional error message and
the result (the bundle id string). -/
structure SendBundleResponse where
  error : Option String
  result : String
deriving DecidableEq, Repr

/-- Relay response envelope for the two status queries: an optional error
message, and `value` modelling `data.result?.value` (`none` when `result` or
`value` is absent). -/
structure StatusesResponse where
  error : Option String
  value : Option (List (Option BundleStatus))
deriving DecidableEq, Repr

/-- Embedding of `sendBundle` (behavioural part: request-URL selection is
`sendBundleRequestUrl`). Given the serialized transactions and the relay's
response envelope: an error envelope throws
`sendBundle failed: <message>`, otherwise the bundle id is returned. -/
def sendBundle (encodedTransactions : List String) (endpoint : String)
    (resp : SendBundleResponse) : Except String String :=
  match resp.error with
  | some msg => .error ("sendBundle failed: " ++ msg)
  | none => .ok resp.result

/-- Embedding of `getBundleStatuses` (behavioural part: request-URL selection
is `getBundleStatusesRequestUrl`). An error envelope throws; otherwise the
returned list is `data.result?.value || []`. -/
def getBundleStatuses (bundleIds : List String) (endpoint : String)
    (resp : StatusesResponse) : Except String (List (Option BundleStatus)) :=
  match resp.error with
  | some msg => .error ("getBundleStatuses failed: " ++ msg)
  | none => .ok (resp.value.getD [])

/-- Embedding of `getBundleInflightStatuses` (behavioural part: request-URL
selection is `getBundleInflightStatusesRequestUrl`). -/
def getBundleInflightStatuses (bundleIds : List String) (endpoint : String)
    (resp : StatusesResponse) : Except String (List (Option BundleStatus)) :=
  match resp.error with
  | some msg => .error ("getInflightBundleStatuses failed: " ++ msg)
  | none => .ok (resp.value.getD [])

/-- Observation made by one iteration of the polling loop of
`waitForBundleConfirmation`: either the `getBundleStatuses` call threw, or it
succeeded (with the listed statuses) and the `getBundleInflightStatuses` call
threw, or both succeeded. -/
inductive TickResult where
  | statusErr : TickResult
  | inflightErr : List (Option BundleStatus) → TickResult
  | ok : List (Option BundleStatus) → List (Option BundleStatus) → TickResult
deriving DecidableEq, Repr

/-- Milliseconds of fixed `setTimeout` waits executed inside the `try` block
of one tick before the decision point: 1000 after each successful query. A
query that throws skips the remaining waits of the tick. -/
def tickElapsedMs : TickResult → Int
  | .statusErr => 0
  | .inflightErr _ => 1000
  | .ok _ _ => 2000

/-- The landed test of the poller:
`status.confirmation_status === 'confirmed' || === 'finalized'`. -/
def isLanded (s : BundleStatus) : Bool :=
  s.confirmation_status == "confirmed" || s.confirmation_status == "finalized"

/-- Decision the poller takes from `statuses[0]` when both queries of a tick
succeeded: landed gives success, else a truthy `err` gives failure carrying
`JSON.stringify(status.err)`, else (no record, or neither condition) `none`
meaning keep polling. -/
def decideStatuses (bundleId : String) (statuses : List (Option BundleStatus)) :
    Option JitoBundleResult :=
  match statuses.head? with
  | some (some s) =>
      if isLanded s then some ⟨bundleId, true, none⟩
      else
        match s.err with
        | some e => some ⟨bundleId, false, some (jsonStringify e)⟩
        | none => none
  | _ => none

/-- Decision of one tick: a tick on which either query threw is caught by the
`catch` block and decides nothing. -/
def tickDecide (bundleId : String) : TickResult → Option JitoBundleResult
  | .ok statuses _ => decideStatuses bundleId statuses
  | _ => none

/-- Is this tick one on which a status or inflight-status query threw? -/
def tickIsQueryError : TickResult → Bool
  | .ok _ _ => false
  | _ => true

/-- The timeout result of `waitForBundleConfirmation`. -/
def timeoutResult (bundleId : String) : JitoBundleResult :=
  ⟨bundleId, false, some "Bundle confirmation timeout"⟩

/-- Embedding of the `while` loop of `waitForBundleConfirmation`. `now` is
the elapsed clock (`Date.now() - startTime`); query durations are taken as 0,
so the clock advances by the fixed intra-tick waits (`tickElapsedMs`) and by
`pollIntervalMs` between iterations. The value returned is the result
together with the clock at return and the number of loop iterations executed
(each iteration performs exactly one `getBundleStatuses` attempt); `none`
means the supplied observation stream ran out before the loop ended. -/
def runPoll (bundleId : String) (timeoutMs pollIntervalMs : Int) :
    List TickResult → Int → Option (JitoBundleResult × Int × Nat)
  | ticks, now =>
    if now < timeoutMs then
      match ticks with
      | [] => none
      | t :: rest =>
          match tickDecide bundleId t with
          | some r => some (r, now + tickElapsedMs t, 1)
          | none =>
              (runPoll bundleId timeoutMs pollIntervalMs rest
                  (now + tickElapsedMs t + pollIntervalMs)).map
                (fun x => (x.1, x.2.1, x.2.2 + 1))
    else some (timeoutResult bundleId, now, 0)

/-- Embedding of `waitForBundleConfirmation`: runs the polling loop from
elapsed time 0. The `endpoint` parameter is forwarded to the two query
functions (which ignore it, see the RequestUrl definitions). -/
def waitForBundleConfirmation (bundleId : String) (endpoint : String)
    (timeoutMs pollIntervalMs : Int) (ticks : List TickResult) :
    Option (JitoBundleResult × Int × Nat) :=
  runPoll bundleId timeoutMs pollIntervalMs ticks 0

/-- Embedding of `submitAndConfirmBundle`: submits via `sendBundle` (with the
hardcoded Tokyo endpoint argument of the source); if that throws, the `catch`
block returns a failure result carrying the thrown message, with empty bundle
id, the clock still at 0 and zero polling iterations performed; otherwise the
confirmation poller runs with the default 2000 ms interval. -/
def submitAndConfirmBundle (transactions : List String) (timeoutMs : Int)
    (sendResp : SendBundleResponse) (ticks : List TickResult) :
    Option (JitoBundleResult × Int × Nat) :=
  match sendBundle transactions tokyoBundlesEndpoint sendResp with
  | .error msg => some (⟨"", false, some msg⟩, 0, 0)
  | .ok bundleId =>
      waitForBundleConfirmation bundleId
        "https://tokyo.mainnet.block-engine.jito.wtf/api/v1/getBundleStatuses"
        timeoutMs 2000 ticks

/-- Instruction kinds occurring in the transactions built by
`src/hooks/useDriftShort.ts` / `src/utils/drift.ts`. `initUser` stands for
one instruction of the list returned by the SDK for creating the user
account; `deposit` records the base-unit amount, spot market index,
sub-account id and the user-already-existing flag the code passes to
`getDepositInstruction`; `perpOrder` records the market index, base-precision
amount and the 5%-slippage-protected limit price of the market short. -/
inductive DriftIx where
  | initUser : Nat → DriftIx
  | deposit : Int → Nat → Nat → Bool → DriftIx
  | perpOrder : Nat → Int → Int → DriftIx
  | computeUnitLimit : Nat → DriftIx
  | computeUnitPrice : Nat → DriftIx
deriving DecidableEq, Repr

/-- Drift `BASE_PRECISION` (1e9). -/
def BASE_PRECISION : Int := 1000000000

/-- USDC precision used by the deposit builders (1e6). -/
def USDC_PRECISION : Int := 1000000

/-- `DRIFT_SPOT_MARKETS.USDC`: the USDC spot market index (0, the quote spot
market). -/
def DRIFT_SPOT_MARKETS_USDC : Nat := 0

/-- The transaction produced by `buildDriftShortTransaction`. -/
structure DriftTransaction where
  payerKey : String
  recentBlockhash : String
  instructions : List DriftIx
deriving DecidableEq, Repr

/-- Embedding of `buildDriftShortInstructions`. `userExists` is the outcome
of the `driftClient.getUser(subAccountId)` probe (false when it throws);
`initIxs` is the instruction list the SDK returns from
`getInitializeUserAccountIxs`; `oraclePrice` is `none` when the oracle data
or its price field is absent/zero (both falsy in the source's check). The
deposit instruction is added only when `depositAmount` is truthy and
positive, and the perp short order instruction is appended last. -/
def buildDriftShortInstructions (userExists : Bool) (initIxs : List DriftIx)
    (oraclePrice : Option Int) (marketIndex : Nat) (baseAssetAmount : Int)
    (depositAmount : Option Int) (subAccountId : Nat) :
    Except String (List DriftIx) :=
  let userInitialized := userExists
  let ixs0 : List DriftIx := if userExists then [] else initIxs
  let ixs1 : List DriftIx :=
    ixs0 ++
      (match depositAmount with
       | some d =>
           if 0 < d then
             [DriftIx.deposit (d * USDC_PRECISION) DRIFT_SPOT_MARKETS_USDC
                subAccountId (userInitialized || decide (0 < ixs0.length))]
           else []
       | none => [])
  match oraclePrice with
  | none =>
      .error ("Unable to get oracle data for market index " ++
        toString marketIndex ++ ". Make sure DriftClient is subscribed.")
  | some price =>
      if price = 0 then
        .error ("Unable to get oracle data for market index " ++
          toString marketIndex ++ ". Make sure DriftClient is subscribed.")
      else
        .ok (ixs1 ++
          [DriftIx.perpOrder marketIndex (baseAssetAmount * BASE_PRECISION)
            (price * 95 / 100)])

/-- Embedding of `buildDriftShortTransaction`: wraps the instruction list of
`buildDriftShortInstructions` in one transaction, prefixed by a compute-unit
limit (800k when `depositAmount` is truthy, else 600k) and a compute-unit
price of 1000. `blockhash` stands for the fetched recent blockhash. -/
def buildDriftShortTransaction (userPublicKey : String) (blockhash : String)
    (userExists : Bool) (initIxs : List DriftIx) (oraclePrice : Option Int)
    (marketIndex : Nat) (baseAssetAmount : Int) (depositAmount : Option Int)
    (subAccountId : Nat) : Except String DriftTransaction :=
  match buildDriftShortInstructions userExists initIxs oraclePrice marketIndex
      baseAssetAmount depositAmount subAccountId with
  | .error e => .error e
  | .ok ixs =>
      let computeUnits : Nat :=
        match depositAmount with
        | some d => if d = 0 then 600000 else 800000
        | none => 600000
      .ok { payerKey := userPublicKey
            recentBlockhash := blockhash
            instructions :=
              [DriftIx.computeUnitLimit computeUnits,
               DriftIx.computeUnitPrice 1000] ++ ixs }

/-- Lifecycle events on the per-session Drift client observed during one
build call: acquisition (`initializeDriftClient` returned the client and the
ref was set) and release (`cleanupDriftClient`, i.e. `unsubscribe`, was
called on it). Clients are identified by a `Nat`. -/
inductive ClientEvent where
  | acquired : Nat → ClientEvent
  | released : Nat → ClientEvent
deriving DecidableEq, Repr

/-- Embedding of the `buildShort` callback of `useDriftShort`. State passed
in: `driftClientRef` (the hook's `useRef` cell). Effects passed in:
`walletConnected` (whether publicKey/signTransaction/signAllTransactions are
all present), `initClientResult` (the Drift client produced by
`initializeDriftClient`, or the error it threw) and `buildTxResult` (the
transaction produced by `buildDriftShortTransaction` for that client, or the
error it threw; the built transaction is abstracted to a `String`). Returns
the call's return value (`some tx` or `null`), the final value of the ref
cell and the client lifecycle events in order. -/
def buildShort (driftClientRef : Option Nat) (walletConnected : Bool)
    (initClientResult : Except String Nat)
    (buildTxResult : Nat → Except String String) :
    Option String × Option Nat × List ClientEvent :=
  if walletConnected = false then (none, driftClientRef, [])
  else
    match initClientResult with
    | .error _ =>
        match driftClientRef with
        | some c => (none, none, [ClientEvent.released c])
        | none => (none, none, [])
    | .ok c =>
        match buildTxResult c with
        | .ok tx =>
            (some tx, none, [ClientEvent.acquired c, ClientEvent.released c])
        | .error _ =>
            (none, none, [ClientEvent.acquired c, ClientEvent.released c])

/-- Embedding of the `buildDeposit` callback of `useDriftShort`; identical
lifecycle structure to `buildShort`, with `buildTxResult` standing for
`buildDriftDepositTransaction`. -/
def buildDeposit (driftClientRef : Option Nat) (walletConnected : Bool)
    (initClientResult : Except String Nat)
    (buildTxResult : Nat → Except String String) :
    Option String × Option Nat × List ClientEvent :=
  if walletConnected = false then (none, driftClientRef, [])
  else
    match initClientResult with
    | .error _ =>
        match driftClientRef with
        | some c => (none, none, [ClientEvent.released c])
        | none => (none, none, [])
    | .ok c =>
        match buildTxResult c with
        | .ok tx =>
            (some tx, none, [ClientEvent.acquired c, ClientEvent.released c])
        | .error _ =>
            (none, none, [ClientEvent.acquired c, ClientEvent.released c])

/-! ## Helper lemmas about the polling loop -/

theorem runPoll_cons (bundleId : String) (timeoutMs pollIntervalMs : Int)
    (t : TickResult) (rest : List TickResult) (now : Int) (h : now < timeoutMs) :
    runPoll bundleId timeoutMs pollIntervalMs (t :: rest) now =
      match tickDecide bundleId t with
      | some r => some (r, now + tickElapsedMs t, 1)
      | none =>
          (runPoll bundleId timeoutMs pollIntervalMs rest
              (now + tickElapsedMs t + pollIntervalMs)).map
            (fun x => (x.1, x.2.1, x.2.2 + 1)) := by
  rw [runPoll]
  simp [h]

theorem runPoll_timeout (bundleId : String) (timeoutMs pollIntervalMs : Int)
    (ticks : List TickResult) (now : Int) (h : ¬ now < timeoutMs) :
    runPoll bundleId timeoutMs pollIntervalMs ticks now =
      some (timeoutResult bundleId, now, 0) := by
  cases ticks <;> (rw [runPoll]; simp [h])

theorem tickElapsedMs_nonneg (t : TickResult) : 0 ≤ tickElapsedMs t := by
  cases t <;> simp [tickElapsedMs]

theorem tickElapsedMs_le (t : TickResult) : tickElapsedMs t ≤ 2000 := by
  cases t <;> norm_num [tickElapsedMs]

theorem runPoll_elapsed_le (bundleId : String) (timeoutMs pollIntervalMs : Int)
    (hP : 0 ≤ pollIntervalMs) :
    ∀ (ticks : List TickResult) (now : Int) (r : JitoBundleResult)
      (tEnd : Int) (n : Nat),
      now ≤ timeoutMs + pollIntervalMs + 2000 →
      runPoll bundleId timeoutMs pollIntervalMs ticks now = some (r, tEnd, n) →
      tEnd ≤ timeoutMs + pollIntervalMs + 2000 := by
  intro ticks
  induction ticks with
  | nil =>
      intro now r tEnd n hnow h
      by_cases hc : now < timeoutMs
      · rw [runPoll] at h
        simp [hc] at h
      · rw [runPoll_timeout _ _ _ _ _ hc] at h
        simp [timeoutResult] at h
        obtain ⟨-, h2, -⟩ := h
        omega
  | cons t rest ih =>
      intro now r tEnd n hnow h
      by_cases hc : now < timeoutMs
      · rw [runPoll_cons _ _ _ _ _ _ hc] at h
        have he1 := tickElapsedMs_nonneg t
        have he2 := tickElapsedMs_le t
        cases hd : tickDecide bundleId t with
        | some r0 =>
            simp [hd] at h
            omega
        | none =>
            simp only [hd, Option.map_eq_some'] at h
            obtain ⟨⟨r1, t1, n1⟩, h1, h2⟩ := h
            simp only [Prod.mk.injEq] at h2
            obtain ⟨-, h2b, -⟩ := h2
            have := ih (now + tickElapsedMs t + pollIntervalMs) r1 t1 n1
              (by omega) h1
            omega
      · rw [runPoll_timeout _ _ _ _ _ hc] at h
        simp [timeoutResult] at h
        obtain ⟨-, h2, -⟩ := h
        omega

/-! ## Claim theorems -/

/-- C1: on every poll tick of `waitForBundleConfirmation` on which the
queries succeed, the poller (entered while the budget is not exhausted)
terminates with the success outcome when the queried status record reports a
confirmed/finalized confirmation level; terminates with a failure outcome
carrying the stringified error payload when the record carries a non-null
`err` field (and is not landed); and otherwise — record neither landed nor
in error, or record null/absent — decides nothing and polling continues with
the next tick. -/
theorem waitForBundleConfirmation_tick_transitions (bundleId : String)
    (timeoutMs pollIntervalMs now : Int)
    (statuses inflight : List (Option BundleStatus)) (rest : List TickResult)
    (htick : now < timeoutMs) :
    (∀ s, statuses.head? = some (some s) → isLanded s = true →
      runPoll bundleId timeoutMs pollIntervalMs
          (TickResult.ok statuses inflight :: rest) now
        = some (⟨bundleId, true, none⟩, now + 2000, 1))
    ∧ (∀ s e, statuses.head? = some (some s) → isLanded s = false →
        s.err = some e →
      runPoll bundleId timeoutMs pollIntervalMs
          (TickResult.ok statuses inflight :: rest) now
        = some (⟨bundleId, false, some (jsonStringify e)⟩, now + 2000, 1))
    ∧ (∀ s, statuses.head? = some (some s) → isLanded s = false →
        s.err = none →
      runPoll bundleId timeoutMs pollIntervalMs
          (TickResult.ok statuses inflight :: rest) now
        = (runPoll bundleId timeoutMs pollIntervalMs rest
              (now + 2000 + pollIntervalMs)).map
            (fun x => (x.1, x.2.1, x.2.2 + 1)))
    ∧ ((statuses.head? = none ∨ statuses.head? = some none) →
      runPoll bundleId timeoutMs pollIntervalMs
          (TickResult.ok statuses inflight :: rest) now
        = (runPoll bundleId timeoutMs pollIntervalMs rest
              (now + 2000 + pollIntervalMs)).map
            (fun x => (x.1, x.2.1, x.2.2 + 1))) := by
  rw [runPoll_cons _ _ _ _ _ _ htick]
  refine ⟨?_, ?_, ?_, ?_⟩
  · intro s hs hl
    simp [tickDecide, decideStatuses, tickElapsedMs, hs, hl]
  · intro s e hs hl he
    simp [tickDecide, decideStatuses, tickElapsedMs, hs, hl, he]
  · intro s hs hl he
    simp [tickDecide, decideStatuses, tickElapsedMs, hs, hl, he]
  · intro hs
    rcases hs with hs | hs <;>
      simp [tickDecide, decideStatuses, tickElapsedMs, hs]

/-- Witness for C1: a tick whose first status record is finalized makes the
poller return the success outcome at once. -/
theorem waitForBundleConfirmation_tick_transitions_witness :
    (0 : Int) < 60000
    ∧ runPoll "bid" 60000 2000
        [TickResult.ok [some ⟨"finalized", none⟩] []] 0
      = some (⟨"bid", true, none⟩, 0 + 2000, 1) :=
  ⟨by norm_num,
    (waitForBundleConfirmation_tick_transitions "bid" 60000 2000 0
        [some ⟨"finalized", none⟩] [] [] (by norm_num)).1
      ⟨"finalized", none⟩ rfl rfl⟩

/-- C10: a call of `waitForBundleConfirmation` with a nonpositive timeout
budget returns the timeout outcome immediately, at elapsed time 0 and with
zero loop iterations (hence zero status or inflight-status queries),
whatever the relay would have answered. -/
theorem waitForBundleConfirmation_nonpositive_timeout (bundleId endpoint : String)
    (timeoutMs pollIntervalMs : Int) (ticks : List TickResult)
    (h : timeoutMs ≤ 0) :
    waitForBundleConfirmation bundleId endpoint timeoutMs pollIntervalMs ticks
      = some (timeoutResult bundleId, 0, 0) := by
  have h0 : ¬ (0 : Int) < timeoutMs := by omega
  unfold waitForBundleConfirmation
  exact runPoll_timeout _ _ _ _ _ h0

/-- Witness for C10: with a zero budget the poller answers TimedOut without
consuming any tick. -/
theorem waitForBundleConfirmation_nonpositive_timeout_witness :
    (0 : Int) ≤ 0
    ∧ waitForBundleConfirmation "bid" "endpoint" 0 2000 [TickResult.statusErr]
      = some (timeoutResult "bid", 0, 0) :=
  ⟨le_refl 0,
    waitForBundleConfirmation_nonpositive_timeout "bid" "endpoint" 0 2000
      [TickResult.statusErr] (le_refl 0)⟩

/-- C4 counterexample: with a budget of 1 ms and the default 2000 ms poll
interval, a single inconclusive tick (both queries succeed, empty status
list) makes the poller return at elapsed time 4000 ms — more than one
poll-interval past the budget — because each tick also performs two fixed
1000 ms waits before the next budget check. -/
theorem waitForBundleConfirmation_overshoot_cex :
    waitForBundleConfirmation "bid" "endpoint" 1 2000 [TickResult.ok [] []]
      = some (timeoutResult "bid", 4000, 1)
    ∧ ¬ ((4000 : Int) ≤ 1 + 2000) := by
  constructor
  · rfl
  · decide

/-- C4 amended: for a nonnegative timeout budget and a nonnegative poll
interval, the elapsed time at which `waitForBundleConfirmation` returns
(with any outcome) exceeds the budget by at most one poll-interval plus the
2000 ms of fixed intra-tick waits (query durations taken as zero). -/
theorem waitForBundleConfirmation_elapsed_bound (bundleId endpoint : String)
    (timeoutMs pollIntervalMs : Int) (ticks : List TickResult)
    (r : JitoBundleResult) (tEnd : Int) (n : Nat)
    (hT : 0 ≤ timeoutMs) (hP : 0 ≤ pollIntervalMs)
    (h : waitForBundleConfirmation bundleId endpoint timeoutMs pollIntervalMs
        ticks = some (r, tEnd, n)) :
    tEnd ≤ timeoutMs + pollIntervalMs + 2000 :=
  runPoll_elapsed_le bundleId timeoutMs pollIntervalMs hP ticks 0 r tEnd n
    (by omega) h

/-- Witness for C4 (amended): the defaults 60000/2000 with one finalized
tick return at 2000 ms, within the bound. -/
theorem waitForBundleConfirmation_elapsed_bound_witness :
    (0 : Int) ≤ 60000 ∧ (0 : Int) ≤ 2000
    ∧ (2000 : Int) ≤ 60000 + 2000 + 2000 :=
  ⟨by norm_num, by norm_num,
    waitForBundleConfirmation_elapsed_bound "bid" "endpoint" 60000 2000
      [TickResult.ok [some ⟨"finalized", none⟩] []]
      ⟨"bid", true, none⟩ 2000 1 (by norm_num) (by norm_num) rfl⟩

/-- C5: a tick on which the status query or the inflight-status query throws
decides nothing — the loop's only effect is to advance to the next tick with
the count incremented — and a run all of whose ticks are query errors can
only end (if it ends within the supplied observations) in the TimedOut
outcome, never surfacing the query errors. -/
theorem waitForBundleConfirmation_swallows_query_errors :
    (∀ (bundleId : String) (timeoutMs pollIntervalMs now : Int)
        (t : TickResult) (rest : List TickResult),
      now < timeoutMs → tickIsQueryError t = true →
      runPoll bundleId timeoutMs pollIntervalMs (t :: rest) now
        = (runPoll bundleId timeoutMs pollIntervalMs rest
              (now + tickElapsedMs t + pollIntervalMs)).map
            (fun x => (x.1, x.2.1, x.2.2 + 1)))
    ∧ (∀ (bundleId : String) (timeoutMs pollIntervalMs : Int)
        (ticks : List TickResult) (now : Int),
      (∀ t ∈ ticks, tickIsQueryError t = true) →
      runPoll bundleId timeoutMs pollIntervalMs ticks now = none
      ∨ ∃ tEnd n, runPoll bundleId timeoutMs pollIntervalMs ticks now
          = some (timeoutResult bundleId, tEnd, n)) := by
  constructor
  · intro bundleId timeoutMs pollIntervalMs now t rest hc hq
    rw [runPoll_cons _ _ _ _ _ _ hc]
    cases t with
    | statusErr => rfl
    | inflightErr sts => rfl
    | ok sts inf => simp [tickIsQueryError] at hq
  · intro bundleId timeoutMs pollIntervalMs ticks
    induction ticks with
    | nil =>
        intro now _
        by_cases hc : now < timeoutMs
        · left
          rw [runPoll]
          simp [hc]
        · right
          exact ⟨now, 0, runPoll_timeout _ _ _ _ _ hc⟩
    | cons t rest ih =>
        intro now hall
        by_cases hc : now < timeoutMs
        · have hq : tickIsQueryError t = true := hall t (by simp)
          have hd : tickDecide bundleId t = none := by
            cases t with
            | statusErr => rfl
            | inflightErr sts => rfl
            | ok sts inf => simp [tickIsQueryError] at hq
          rw [runPoll_cons _ _ _ _ _ _ hc, hd]
          rcases ih (now + tickElapsedMs t + pollIntervalMs)
              (fun t ht => hall t (by simp [ht])) with hnone | ⟨tEnd, n, hsome⟩
          · left
            simp [hnone]
          · right
            exact ⟨tEnd, n + 1, by simp [hsome]⟩
        · right
          exact ⟨now, 0, runPoll_timeout _ _ _ _ _ hc⟩

/-- Witness for C5: a stream of two failing-query ticks under a 1 ms budget
and 1 ms interval ends in the TimedOut outcome. -/
theorem waitForBundleConfirmation_swallows_query_errors_witness :
    (∀ t ∈ [TickResult.statusErr], tickIsQueryError t = true)
    ∧ (runPoll "bid" 1 1 [TickResult.statusErr] 0 = none
      ∨ ∃ tEnd n, runPoll "bid" 1 1 [TickResult.statusErr] 0
          = some (timeoutResult "bid", tEnd, n)) :=
  ⟨by decide,
    (waitForBundleConfirmation_swallows_query_errors).2 "bid" 1 1
      [TickResult.statusErr] 0 (by decide)⟩

/-- C2: when the relay answers `sendBundle` with an error envelope,
`submitAndConfirmBundle` returns a failure result carrying the relay's
message (wrapped in the thrown `sendBundle failed:` message), with empty
bundle id, zero elapsed time and zero polling iterations — the result is the
same for every tick stream, so the confirmation phase is never entered and no
status query is made. -/
theorem submitAndConfirmBundle_relay_rejected (transactions : List String)
    (timeoutMs : Int) (msg result : String) (ticks : List TickResult) :
    submitAndConfirmBundle transactions timeoutMs ⟨some msg, result⟩ ticks
      = some (⟨"", false, some ("sendBundle failed: " ++ msg)⟩, 0, 0) := by
  rfl

/-- C3 (code bug): every relay-client call POSTs to the hardcoded Amsterdam
URL; the caller-supplied `endpoint` parameter is ignored, so even the Tokyo
endpoint that `submitAndConfirmBundle` itself passes to `sendBundle` is
silently replaced. -/
theorem relayClient_endpoint_ignored :
    sendBundleRequestUrl tokyoBundlesEndpoint ≠ tokyoBundlesEndpoint
    ∧ sendBundleRequestUrl tokyoBundlesEndpoint
        = "https://amsterdam.mainnet.block-engine.jito.wtf/api/v1/bundles"
    ∧ (∀ endpoint, sendBundleRequestUrl endpoint
        = "https://amsterdam.mainnet.block-engine.jito.wtf/api/v1/bundles")
    ∧ (∀ endpoint, getBundleStatusesRequestUrl endpoint
        = "https://amsterdam.mainnet.block-engine.jito.wtf/api/v1/getBundleStatuses")
    ∧ (∀ endpoint, getBundleInflightStatusesRequestUrl endpoint
        = "https://amsterdam.mainnet.block-engine.jito.wtf/api/v1/getInflightBundleStatuses") := by
  refine ⟨by decide, rfl, fun _ => rfl, fun _ => rfl, fun _ => rfl⟩

/-- C6 counterexample: a caller-supplied 1-lamport tip — far below the
10000-lamport floor documented next to `DEFAULT_TIP_LAMPORTS` — is passed
through verbatim: the built transaction transfers exactly 1 lamport, neither
rejected nor clamped. -/
theorem createTipTransaction_below_floor_cex :
    (createTipTransaction "payer" "blockhash" 1 JITO_TIP_ACCOUNTS 0).map
        (fun t => t.instructions.map (fun ix => ix.lamports))
      = some [1]
    ∧ (1 : Int) < DEFAULT_TIP_LAMPORTS := by
  constructor
  · rfl
  · decide

/-- C6 amended: for every payer, blockhash, tip amount and in-range random
index, `createTipTransaction` returns one transaction containing exactly one
value-transfer instruction, from the payer to the selected tip-recipient
account (a member of the fetched account list), for exactly the supplied
amount — sub-floor amounts included, the floor being only the default. -/
theorem createTipTransaction_single_transfer (payer blockhash : String)
    (tip : Int) (addresses : List String) (i : Nat) (account : String)
    (h : addresses.get? i = some account) :
    createTipTransaction payer blockhash tip addresses i
      = some ⟨payer, blockhash, [⟨payer, account, tip⟩]⟩
    ∧ account ∈ addresses := by
  constructor
  · unfold createTipTransaction getRandomTipAccount
    rw [h]
  · exact List.get?_mem h

/-- Witness for C6 (amended): the default tip to the first hardcoded account. -/
theorem createTipTransaction_single_transfer_witness :
    JITO_TIP_ACCOUNTS.get? 0
        = some "96gYZGLnJYVFmbjzopPSU6QiEV5fGqZNyN9nmNhvrZU5"
    ∧ (createTipTransaction "payer" "blockhash" DEFAULT_TIP_LAMPORTS
          JITO_TIP_ACCOUNTS 0
        = some ⟨"payer", "blockhash",
            [⟨"payer", "96gYZGLnJYVFmbjzopPSU6QiEV5fGqZNyN9nmNhvrZU5",
              DEFAULT_TIP_LAMPORTS⟩]⟩
      ∧ "96gYZGLnJYVFmbjzopPSU6QiEV5fGqZNyN9nmNhvrZU5" ∈ JITO_TIP_ACCOUNTS) :=
  ⟨rfl,
    createTipTransaction_single_transfer "payer" "blockhash"
      DEFAULT_TIP_LAMPORTS JITO_TIP_ACCOUNTS 0
      "96gYZGLnJYVFmbjzopPSU6QiEV5fGqZNyN9nmNhvrZU5" rfl⟩

/-- C7 counterexample: when the relay's (non-error) response omits the
result value, `getBundleStatuses` returns the empty list — zero slots for a
one-handle query, so the one-slot-per-input-handle shape is not guaranteed
by the function itself. -/
theorem getBundleStatuses_missing_result_cex :
    getBundleStatuses ["handle"] "endpoint" ⟨none, none⟩
      = .ok ([] : List (Option BundleStatus))
    ∧ ([] : List (Option BundleStatus)).length ≠ (["handle"]).length := by
  constructor
  · rfl
  · decide

/-- C7 amended: both status queries pass the relay-reported list through
as a normal `.ok` result — in particular, when the relay's response carries
one slot per input handle the returned list has exactly one slot per input
handle, and `null` slots for handles unknown to the relay are returned as
normal results, not raised as errors (only an error envelope raises). -/
theorem bundleStatuses_slot_per_handle (bundleIds : List String)
    (endpoint : String) (v : List (Option BundleStatus))
    (h : v.length = bundleIds.length) :
    getBundleStatuses bundleIds endpoint ⟨none, some v⟩ = .ok v
    ∧ getBundleInflightStatuses bundleIds endpoint ⟨none, some v⟩ = .ok v
    ∧ ∃ l, getBundleStatuses bundleIds endpoint ⟨none, some v⟩ = .ok l
        ∧ l.length = bundleIds.length :=
  ⟨rfl, rfl, v, rfl, h⟩

/-- Witness for C7 (amended): one unknown handle, one `null` slot, returned
as a normal result. -/
theorem bundleStatuses_slot_per_handle_witness :
    ([(none : Option BundleStatus)]).length = (["handle"]).length
    ∧ (getBundleStatuses ["handle"] "endpoint" ⟨none, some [none]⟩
        = .ok [none]
      ∧ getBundleInflightStatuses ["handle"] "endpoint" ⟨none, some [none]⟩
        = .ok [none]
      ∧ ∃ l, getBundleStatuses ["handle"] "endpoint" ⟨none, some [none]⟩
          = .ok l ∧ l.length = (["handle"]).length) :=
  ⟨rfl,
    bundleStatuses_slot_per_handle ["handle"] "endpoint" [none] rfl⟩

/-- C8: when a positive deposit amount is supplied (and the oracle price is
available), the single transaction built by `buildDriftShortTransaction`
carries, after the two compute-budget instructions, the user-initialization
instructions (empty when the user account already exists), then the USDC
deposit instruction, then — strictly after it — the perp short order
instruction, all within that one transaction. -/
theorem buildDriftShortTransaction_deposit_before_order
    (userPublicKey blockhash : String) (userExists : Bool)
    (initIxs : List DriftIx) (price : Int) (marketIndex : Nat)
    (baseAssetAmount d : Int) (subAccountId : Nat)
    (hd : 0 < d) (hp : price ≠ 0) :
    buildDriftShortTransaction userPublicKey blockhash userExists initIxs
        (some price) marketIndex baseAssetAmount (some d) subAccountId
      = .ok ⟨userPublicKey, blockhash,
          [DriftIx.computeUnitLimit 800000, DriftIx.computeUnitPrice 1000]
          ++ ((if userExists then [] else initIxs)
              ++ [DriftIx.deposit (d * USDC_PRECISION) DRIFT_SPOT_MARKETS_USDC
                    subAccountId
                    (userExists
                      || decide (0 < (if userExists then [] else initIxs).length)),
                  DriftIx.perpOrder marketIndex
                    (baseAssetAmount * BASE_PRECISION) (price * 95 / 100)])⟩ := by
  have hdz : ¬ d = 0 := by omega
  simp [buildDriftShortTransaction, buildDriftShortInstructions, hd, hdz, hp]

/-- Witness for C8: a 50-USDC deposit with an uninitialized user account
yields init, deposit, then short order in one transaction. -/
theorem buildDriftShortTransaction_deposit_before_order_witness :
    (0 : Int) < 50 ∧ (100 : Int) ≠ 0
    ∧ buildDriftShortTransaction "user" "bh" false [DriftIx.initUser 0]
        (some 100) 1 10 (some 50) 0
      = .ok ⟨"user", "bh",
          [DriftIx.computeUnitLimit 800000, DriftIx.computeUnitPrice 1000]
          ++ ([DriftIx.initUser 0]
              ++ [DriftIx.deposit (50 * USDC_PRECISION) DRIFT_SPOT_MARKETS_USDC 0
                    (false || decide (0 < ([DriftIx.initUser 0]).length)),
                  DriftIx.perpOrder 1 (10 * BASE_PRECISION) (100 * 95 / 100)])⟩ :=
  ⟨by norm_num, by norm_num,
    buildDriftShortTransaction_deposit_before_order "user" "bh" false
      [DriftIx.initUser 0] 100 1 10 50 0 (by norm_num) (by norm_num)⟩

/-- C9: starting from an empty client ref (the state the hook maintains
between calls), every `buildShort` and every `buildDeposit` call ends with
the ref reset to `none`, and its client lifecycle is either empty (no client
was acquired: wallet missing or acquisition failed) or exactly one
acquisition immediately followed by the release of that same client — on the
success path and on every error path alike, so no client instance survives a
call or is reused across calls. -/
theorem driftClient_scoped_per_call (walletConnected walletConnected' : Bool)
    (initClientResult initClientResult' : Except String Nat)
    (buildTxResult buildTxResult' : Nat → Except String String) :
    ((buildShort none walletConnected initClientResult buildTxResult).2.1
        = none
      ∧ ((buildShort none walletConnected initClientResult buildTxResult).2.2
          = []
        ∨ ∃ c, (buildShort none walletConnected initClientResult
              buildTxResult).2.2
            = [ClientEvent.acquired c, ClientEvent.released c]))
    ∧ ((buildDeposit none walletConnected' initClientResult' buildTxResult').2.1
        = none
      ∧ ((buildDeposit none walletConnected' initClientResult'
            buildTxResult').2.2 = []
        ∨ ∃ c, (buildDeposit none walletConnected' initClientResult'
              buildTxResult').2.2
            = [ClientEvent.acquired c, ClientEvent.released c])) := by
  constructor
  · cases walletConnected with
    | false => exact ⟨rfl, Or.inl rfl⟩
    | true =>
        cases initClientResult with
        | error e => exact ⟨rfl, Or.inl rfl⟩
        | ok c =>
            cases hb : buildTxResult c with
            | error e =>
                refine ⟨?_, Or.inr ⟨c, ?_⟩⟩ <;> simp [buildShort, hb]
            | ok tx =>
                refine ⟨?_, Or.inr ⟨c, ?_⟩⟩ <;> simp [buildShort, hb]
  · cases walletConnected' with
    | false => exact ⟨rfl, Or.inl rfl⟩
    | true =>
        cases initClientResult' with
        | error e => exact ⟨rfl, Or.inl rfl⟩
        | ok c =>
            cases hb : buildTxResult' c with
            | error e =>
                refine ⟨?_, Or.inr ⟨c, ?_⟩⟩ <;> simp [buildDeposit, hb]
            | ok tx =>
                refine ⟨?_, Or.inr ⟨c, ?_⟩⟩ <;> simp [buildDeposit, hb]
